import Mathlib

/-!
Verification of the serial-client framing core
(`src/tools/serial_client/serial_client.py`): CRC-16/Modbus, the scalar
coercions `parse_u8` and `data_to_2_bytes`, and `CommandSender.build_frame`,
together with the `FrameValidator` described in the design document.

Python byte strings are modelled as `List Nat` (each element a byte value),
Python text as `List Char`, and Python exceptions as an explicit error type.
-/

set_option maxRecDepth 8000

namespace SerialClient

/-! ### CRC-16/Modbus (`crc16_modbus`, lines 6-16) -/

/-- One iteration of the 8-step inner loop of `crc16_modbus`:
`lsb = crc & 1; crc >>= 1; if lsb: crc ^= 0xA001`. -/
def crcBit (crc : Nat) : Nat :=
  let lsb := crc &&& 1
  let crc := crc >>> 1
  if lsb = 1 then crc ^^^ 0xA001 else crc

/-- The `for _ in range(8)` loop of `crc16_modbus`. -/
def crcBitLoop : Nat → Nat → Nat
  | 0, crc => crc
  | n + 1, crc => crcBitLoop n (crcBit crc)

/-- `crc16_modbus(data)`: register starts at 0xFFFF, each byte is XORed in and
run through 8 bit iterations, and the result is masked to 16 bits. -/
def crc16_modbus (data : List Nat) : Nat :=
  (data.foldl (fun crc b => crcBitLoop 8 (crc ^^^ b)) 0xFFFF) &&& 0xFFFF

/-! ### Python primitives used by the coercions -/

/-- ASCII whitespace, the characters removed by Python `str.strip()`
(the model is restricted to ASCII text). -/
def isPySpace (c : Char) : Bool :=
  c = ' ' ∨ c = '\t' ∨ c = '\n' ∨ c = '\x0d' ∨ c = '\x0b' ∨ c = '\x0c'

/-- Python `str.strip()`: remove leading and trailing whitespace. -/
def pyStrip (s : List Char) : List Char :=
  ((s.dropWhile isPySpace).reverse.dropWhile isPySpace).reverse

/-- Python `str.lower()` (ASCII model). -/
def pyLower (s : List Char) : List Char :=
  s.map Char.toLower

/-- `s.startswith("0x")` on a character list. -/
def startsWith0x : List Char → Bool
  | '0' :: 'x' :: _ => true
  | _ => false

/-- The value of one hexadecimal digit character, if any. -/
def hexDigitVal? (c : Char) : Option Nat :=
  if '0' ≤ c ∧ c ≤ '9' then some (c.toNat - '0'.toNat)
  else if 'a' ≤ c ∧ c ≤ 'f' then some (c.toNat - 'a'.toNat + 10)
  else if 'A' ≤ c ∧ c ≤ 'F' then some (c.toNat - 'A'.toNat + 10)
  else none

/-- The value of a digit character in the given base (10 or 16), if valid. -/
def digitVal? (base : Nat) (c : Char) : Option Nat :=
  match hexDigitVal? c with
  | some v => if v < base then some v else none
  | none => none

/-- Accumulate the value of a digit run; fails at the first invalid digit. -/
def digitsAcc? (base : Nat) (acc : Nat) : List Char → Option Nat
  | [] => some acc
  | c :: cs =>
    match digitVal? base c with
    | some d => digitsAcc? base (acc * base + d) cs
    | none => none

/-- Parse a nonempty run of digits in the given base; `none` when empty or an
invalid digit occurs. -/
def digitsVal? (base : Nat) (cs : List Char) : Option Nat :=
  match cs with
  | [] => none
  | _ => digitsAcc? base 0 cs

/-- Drop a leading `0x`/`0X` marker when present. -/
def dropHexTag : List Char → List Char
  | '0' :: c :: rest => if c = 'x' ∨ c = 'X' then rest else '0' :: c :: rest
  | cs => cs

/-- The unsigned part of Python `int(s, base)`: for base 16 an optional
`0x`/`0X` marker, then a nonempty digit run. -/
def pyIntCore (base : Nat) (cs : List Char) : Option Nat :=
  digitsVal? base (if base = 16 then dropHexTag cs else cs)

/-- Model of Python `int(s, base)` for base 10 and 16 on pre-stripped ASCII
text: an optional sign, then the unsigned numeral.  Underscore digit
separators are not modelled. -/
def pyInt (base : Nat) (cs : List Char) : Option Int :=
  match cs with
  | '+' :: rest => (pyIntCore base rest).map Int.ofNat
  | '-' :: rest => (pyIntCore base rest).map (fun n => -(n : Int))
  | _ => (pyIntCore base cs).map Int.ofNat

/-! ### Python values and exceptions -/

/-- A caller-supplied Python value: `int`, `bytes`, `bytearray`, `str` or
`None`.  `bytes`/`bytearray` contents are byte values, text is ASCII. -/
inductive PyVal where
  | vInt (i : Int)
  | vBytes (bs : List Nat)
  | vByteArray (bs : List Nat)
  | vStr (s : List Char)
  | vNone
deriving DecidableEq, Repr

/-- A Python exception as raised by the client code: `TypeError` or
`ValueError` (number-format failures from `int()` and `UnicodeDecodeError`
are `ValueError`s in Python), distinguished by message. -/
inductive PyErr where
  | typeError (msg : String)
  | valueError (msg : String)
deriving DecidableEq, Repr

/-- Message of the `ValueError` raised by `parse_u8` on a value outside
0..255. -/
def u8RangeMsg : String := "Value out of range for u8 (0..255)"

/-- Message of the `TypeError` raised by `parse_u8` on an unsupported
shape. -/
def u8TypeMsg : String := "Unsupported type for u8"

/-- Message standing for the `ValueError` Python `int()` raises on text that
is not a numeral. -/
def invalidLitMsg : String := "invalid literal for int()"

/-- Message standing for a `UnicodeDecodeError` from `bytes.decode`. -/
def decodeErrMsg : String := "codec cant decode byte"

/-- Message of the `ValueError` raised by `data_to_2_bytes` on an integer
outside 0..255. -/
def dataRangeMsg : String := "DATA int must be in 0..255"

/-- Message of the `TypeError` raised by `data_to_2_bytes` on an unsupported
shape. -/
def dataTypeMsg : String := "Unsupported DATA type"

/-- Message of the `ValueError` raised by `build_frame` on an out-of-range
frame length. -/
def frameLenMsg : String := "Frame LEN out of range (2..255). Payload too large?"

/-- `bytes.decode(errors="strict")`, restricted to ASCII: any byte ≥ 0x80
raises (a `UnicodeDecodeError`, which is a `ValueError`). -/
def pyDecode (bs : List Nat) : Except PyErr (List Char) :=
  if bs.all (· < 128) then .ok (bs.map Char.ofNat) else .error (.valueError decodeErrMsg)

/-! ### `parse_u8` (lines 19-51) -/

/-- The hexadecimal digit characters tested by
`all(c in "0123456789abcdef" for c in s)`. -/
def hexChars : List Char :=
  "0123456789abcdef".toList

/-- The `str` branch of `parse_u8`: strip and lowercase, pick base 16 for a
`0x` marker or an all-hex-digit string and base 10 otherwise, then
range-check. -/
def parse_u8_str (x : List Char) : Except PyErr Int :=
  let s := pyLower (pyStrip x)
  let v? :=
    if startsWith0x s then pyInt 16 s
    else if s.all (fun c => c ∈ hexChars) then pyInt 16 s
    else pyInt 10 s
  match v? with
  | none => .error (.valueError invalidLitMsg)
  | some v => if 0 ≤ v ∧ v ≤ 255 then .ok v else .error (.valueError u8RangeMsg)

/-- `parse_u8(x)`: accepts `int` in 0..255, a single raw byte directly,
longer `bytes` decoded as text, or `str`; anything else is a `TypeError`. -/
def parse_u8 : PyVal → Except PyErr Int
  | .vInt x =>
    if 0 ≤ x ∧ x ≤ 255 then .ok x else .error (.valueError u8RangeMsg)
  | .vBytes bs =>
    if bs.length = 1 then .ok (bs.headI : Nat)
    else do
      let s ← pyDecode bs
      parse_u8_str (pyStrip s)
  | .vStr s => parse_u8_str s
  | _ => .error (.typeError u8TypeMsg)

/-! ### `data_to_2_bytes` (lines 54-97) -/

/-- The `bytes`/`bytearray` branch of `data_to_2_bytes`: empty stays empty, a
single byte is promoted to `[0x00, b0]`, and anything else is used as-is. -/
def data_bytes (bs : List Nat) : List Nat :=
  if bs.length = 0 then []
  else if bs.length = 1 then [0x00, bs.headI]
  else bs

/-- The `int` branch of `data_to_2_bytes`: 0 is accepted as `[0x00, 0x00]`,
values in 0..255 become `[0x00, v]`, anything else is a `ValueError`. -/
def data_int (v : Int) : Except PyErr (List Nat) :=
  if v = 0 then .ok [0x00, 0x00]
  else if ¬(0 ≤ v ∧ v ≤ 255) then .error (.valueError dataRangeMsg)
  else .ok [0x00, v.toNat]

/-- `data_to_2_bytes(data)`. -/
def data_to_2_bytes : PyVal → Except PyErr (List Nat)
  | .vNone => .ok []
  | .vBytes bs => .ok (data_bytes bs)
  | .vByteArray bs => .ok (data_bytes bs)
  | .vStr s =>
    let t := pyStrip s
    if t = [] then .ok []
    else
      match (if startsWith0x (pyLower t) then pyInt 16 t else pyInt 10 t) with
      | none => .error (.valueError invalidLitMsg)
      | some v => data_int v
  | .vInt v => data_int v

/-! ### `CommandSender` (lines 100-127) -/

/-- `CommandSender.__init__` stores `self.stx = stx & 0xFF`; Python `&` on
`int` is two's-complement bitwise and, i.e. `Int.land`. -/
def sender_stx (stx : Int) : Nat :=
  (Int.land stx 255).toNat

/-- `CommandSender.build_frame(addr, cmd, data)` with the stored STX byte
`stx`: coerce the fields, range-check `LEN = 2 + len(payload)`, build
`head = [stx, LEN, addr, cmd] + payload` and append the CRC of `head`
low byte first. -/
def build_frame (stx : Nat) (addr cmd data : PyVal) : Except PyErr (List Nat) := do
  let addr_u8 ← parse_u8 addr
  let cmd_u8 ← parse_u8 cmd
  let payload ← data_to_2_bytes data
  let length := 2 + payload.length
  if ¬(2 ≤ length ∧ length ≤ 255) then
    throw (.valueError frameLenMsg)
  else
    let head := [stx, length, addr_u8.toNat, cmd_u8.toNat] ++ payload
    let crc := crc16_modbus head
    return head ++ [crc &&& 0xFF, (crc >>> 8) &&& 0xFF]

/-! ### `FrameValidator` -/

/-- A parse failure of the frame validator. -/
inductive ParseErr where
  | formatError (msg : String)
  | checksumError
deriving DecidableEq, Repr

/-- Message of the validator's short-buffer failure. -/
def tooShortMsg : String := "too short"

/-- Message of the validator's wrong-first-byte failure. -/
def badStxMsg : String := "bad STX"

/-- Message of the validator's truncated-buffer failure. -/
def truncatedMsg : String := "truncated"

/-- Modelled from the spec: `FrameValidator.parse` is not present in the
source; this follows §4.4 word for word.  Reject buffers shorter than 6
bytes, a wrong first byte, or a buffer not holding `1+1+LEN+2` bytes;
recompute the CRC over `LEN` through end of payload (`bytes[1 : 2+LEN]`) and
compare with the trailing low and high bytes; on success return
`(bytes[2], bytes[3], bytes[4 : 2+LEN])`. -/
def parse (stx : Nat) (buf : List Nat) : Except ParseErr (Nat × Nat × List Nat) :=
  if buf.length < 6 then .error (.formatError tooShortMsg)
  else if buf.headI ≠ stx then .error (.formatError badStxMsg)
  else
    let len := buf.getD 1 0
    if buf.length ≠ 1 + 1 + len + 2 then .error (.formatError truncatedMsg)
    else
      let crcCalc := crc16_modbus ((buf.drop 1).take (1 + len))
      if buf.getD (2 + len) 0 = crcCalc &&& 0xFF ∧
         buf.getD (3 + len) 0 = (crcCalc >>> 8) &&& 0xFF then
        .ok (buf.getD 2 0, buf.getD 3 0, (buf.drop 4).take (len - 2))
      else .error .checksumError

/-- The validator amended to recompute the CRC over STX through end of
payload (`bytes[0 : 2+LEN]`), the span `build_frame` actually checksums;
otherwise identical to `parse`. -/
def parse_stx_crc (stx : Nat) (buf : List Nat) : Except ParseErr (Nat × Nat × List Nat) :=
  if buf.length < 6 then .error (.formatError tooShortMsg)
  else if buf.headI ≠ stx then .error (.formatError badStxMsg)
  else
    let len := buf.getD 1 0
    if buf.length ≠ 1 + 1 + len + 2 then .error (.formatError truncatedMsg)
    else
      let crcCalc := crc16_modbus (buf.take (2 + len))
      if buf.getD (2 + len) 0 = crcCalc &&& 0xFF ∧
         buf.getD (3 + len) 0 = (crcCalc >>> 8) &&& 0xFF then
        .ok (buf.getD 2 0, buf.getD 3 0, (buf.drop 4).take (len - 2))
      else .error .checksumError

/-! ### Specification-side restatements -/

/-- The spec's wording of the CRC bit step, with plain arithmetic: if the low
bit is set, shift right one and XOR with 0xA001, else shift right only. -/
def crcBitSpec (c : Nat) : Nat :=
  if c % 2 = 1 then (c / 2) ^^^ 0xA001 else c / 2

/-- The spec's wording of the whole checksum: start at 0xFFFF, XOR each byte
in, run 8 bit iterations, mask to 16 bits. -/
def crc16_spec (data : List Nat) : Nat :=
  (data.foldl (fun r b => crcBitSpec^[8] (r ^^^ b)) 0xFFFF) % 65536

/-- The u8 text rule as the spec words it: after trimming (and lowering), a
`0x`-marked string has the remainder parsed as a base-16 digit run;
otherwise an all-hex-digit string is parsed whole as base-16, else as
base-10; the value is then range-checked. -/
def u8TextOfSpec (x : List Char) : Except PyErr Int :=
  let t := pyLower (pyStrip x)
  let v? :=
    if startsWith0x t then (digitsVal? 16 (t.drop 2)).map Int.ofNat
    else if t.all (fun c => c ∈ hexChars) then pyInt 16 t
    else pyInt 10 t
  match v? with
  | none => .error (.valueError invalidLitMsg)
  | some v => if 0 ≤ v ∧ v ≤ 255 then .ok v else .error (.valueError u8RangeMsg)

/-- The payload text rule as the spec words it: trim; empty text gives the
empty payload; otherwise parse as base-16 with a `0x` marker, base-10
without, and hand the integer to the scalar rule. -/
def payloadTextOfSpec (s : List Char) : Except PyErr (List Nat) :=
  let t := pyStrip s
  if t = [] then .ok []
  else
    match (if startsWith0x (pyLower t) then pyInt 16 t else pyInt 10 t) with
    | none => .error (.valueError invalidLitMsg)
    | some v => data_int v

end SerialClient

deriving instance DecidableEq for Except

namespace SerialClient

/-! ### Helper lemmas -/

/-- A successful `build_frame` with known coercion results yields the literal
frame layout `head ++ [crc_lo, crc_hi]`. -/
theorem build_frame_ok (stx : Nat) (addr cmd data : PyVal) (a c : Int) (p : List Nat)
    (ha : parse_u8 addr = .ok a) (hc : parse_u8 cmd = .ok c)
    (hd : data_to_2_bytes data = .ok p) (hp : p.length ≤ 253) :
    build_frame stx addr cmd data =
      .ok (([stx, 2 + p.length, a.toNat, c.toNat] ++ p) ++
        [crc16_modbus ([stx, 2 + p.length, a.toNat, c.toNat] ++ p) &&& 0xFF,
         (crc16_modbus ([stx, 2 + p.length, a.toNat, c.toNat] ++ p) >>> 8) &&& 0xFF]) := by
  simp only [build_frame, ha, hc, hd, bind, Except.bind]
  rw [if_neg (by omega)]
  rfl

/-- Conversely, every successful `build_frame` arises that way. -/
theorem build_frame_ok_inv {stx : Nat} {addr cmd data : PyVal} {f : List Nat}
    (h : build_frame stx addr cmd data = .ok f) :
    ∃ a c p, parse_u8 addr = .ok a ∧ parse_u8 cmd = .ok c ∧
      data_to_2_bytes data = .ok p ∧ p.length ≤ 253 ∧
      f = ([stx, 2 + p.length, a.toNat, c.toNat] ++ p) ++
        [crc16_modbus ([stx, 2 + p.length, a.toNat, c.toNat] ++ p) &&& 0xFF,
         (crc16_modbus ([stx, 2 + p.length, a.toNat, c.toNat] ++ p) >>> 8) &&& 0xFF] := by
  cases hA : parse_u8 addr with
  | error e => simp [build_frame, hA, bind, Except.bind] at h
  | ok a =>
  cases hC : parse_u8 cmd with
  | error e => simp [build_frame, hA, hC, bind, Except.bind] at h
  | ok c =>
  cases hD : data_to_2_bytes data with
  | error e => simp [build_frame, hA, hC, hD, bind, Except.bind] at h
  | ok p =>
  simp only [build_frame, hA, hC, hD, bind, Except.bind] at h
  by_cases hlen : p.length ≤ 253
  · refine ⟨a, c, p, rfl, rfl, rfl, hlen, ?_⟩
    rw [if_neg (by omega)] at h
    simpa [pure, Except.pure] using h.symm
  · rw [if_pos (by omega)] at h
    simp [throw, throwThe, MonadExceptOf.throw] at h

/-- XOR with an all-ones byte is subtraction from 255. -/
theorem xor255_eq_sub : ∀ x : Fin 256, 255 ^^^ (x : Nat) = 255 - (x : Nat) := by decide

/-- Bit-clearing 255 by `m` keeps exactly the complement of the low byte of
`m`. -/
theorem ldiff255 (m : Nat) : Nat.ldiff 255 m = 255 - m % 256 := by
  have hmod : m % 256 < 256 := Nat.mod_lt _ (by norm_num)
  have h1 : Nat.ldiff 255 m = 255 ^^^ (m % 256) := by
    apply Nat.eq_of_testBit_eq
    intro i
    have h255 : (255 : Nat) = 2 ^ 8 - 1 := by norm_num
    have h256 : (256 : Nat) = 2 ^ 8 := by norm_num
    rw [h255, h256, Nat.testBit_ldiff, Nat.testBit_xor, Nat.testBit_mod_two_pow,
      Nat.testBit_two_pow_sub_one]
    rcases Nat.lt_or_ge i 8 with hi | hi
    · simp [hi]
    · simp [Nat.not_lt.mpr hi]
  rw [h1, xor255_eq_sub ⟨m % 256, hmod⟩]

/-- Python's `stx & 0xFF` on an arbitrary integer is `stx mod 256`. -/
theorem land255_eq_emod (i : Int) : Int.land i 255 = i.emod 256 := by
  cases i with
  | ofNat m =>
    show Int.land (Int.ofNat m) (Int.ofNat 255) = _
    have hland : Int.land (Int.ofNat m) (Int.ofNat 255) = Int.ofNat (m &&& 255) := rfl
    rw [hland]
    have h : m &&& 255 = m % 256 := by
      have h8 := Nat.and_pow_two_sub_one_eq_mod m 8
      norm_num at h8
      exact h8
    rw [h]
    rfl
  | negSucc m =>
    show Int.land (Int.negSucc m) (Int.ofNat 255) = _
    have hland : Int.land (Int.negSucc m) (Int.ofNat 255) = Int.ofNat (Nat.ldiff 255 m) := rfl
    rw [hland, ldiff255]
    have hns : Int.negSucc m = -((m : Int) + 1) := Int.negSucc_eq m
    rw [hns]
    have hcast : (Int.ofNat (255 - m % 256)) = ((255 - m % 256 : Nat) : Int) := rfl
    rw [hcast]
    show _ = -((m : Int) + 1) % 256
    have hmod : m % 256 < 256 := Nat.mod_lt _ (by norm_num)
    omega

/-- The source's bit step and the spec's bit step agree. -/
theorem crcBit_eq_spec (c : Nat) : crcBit c = crcBitSpec c := by
  unfold crcBit crcBitSpec
  rw [Nat.and_one_is_mod, Nat.shiftRight_one]

/-- The source's inner loop is spec-step iteration. -/
theorem crcBitLoop_eq_iterate (n c : Nat) : crcBitLoop n c = crcBitSpec^[n] c := by
  induction n generalizing c with
  | zero => rfl
  | succ k ih =>
    rw [show crcBitLoop (k + 1) c = crcBitLoop k (crcBit c) from rfl,
      Function.iterate_succ_apply, ih, crcBit_eq_spec]

/-- The source checksum equals the spec checksum on every byte sequence. -/
theorem crc16_eq_spec (data : List Nat) : crc16_modbus data = crc16_spec data := by
  unfold crc16_modbus crc16_spec
  have h : ∀ r b : Nat, crcBitLoop 8 (r ^^^ b) = crcBitSpec^[8] (r ^^^ b) := fun r b =>
    crcBitLoop_eq_iterate 8 (r ^^^ b)
  rw [funext fun r => funext fun b => h r b]
  have h3 : (65535 : Nat) = 2 ^ 16 - 1 := by norm_num
  have h2 : (65536 : Nat) = 2 ^ 16 := by norm_num
  rw [show (0xFFFF : Nat) = 65535 from rfl, h3, h2, Nat.and_pow_two_sub_one_eq_mod]

/-- Stripping a whitespace-only string leaves nothing. -/
theorem strip_all_space {s : List Char} (h : s.all isPySpace) : pyStrip s = [] := by
  unfold pyStrip
  have h1 : s.dropWhile isPySpace = [] := by
    rw [List.dropWhile_eq_nil_iff]
    intro x hx
    exact List.all_eq_true.mp h x hx
  rw [h1]
  rfl

/-- `data_to_2_bytes` keeps a byte string whose length is not 1 verbatim. -/
theorem data_bytes_of_ne_one {bs : List Nat} (h : bs.length ≠ 1) : data_bytes bs = bs := by
  unfold data_bytes
  by_cases h0 : bs.length = 0
  · rw [if_pos h0]
    exact (List.length_eq_zero.mp h0).symm
  · rw [if_neg h0, if_neg h]

/-- `parse_u8` accepts every natural number below 256. -/
theorem parse_u8_nat {a : Nat} (h : a < 256) :
    parse_u8 (.vInt (a : Nat)) = .ok ((a : Nat) : Int) := by
  simp [parse_u8]
  omega

/-- A payload longer than 253 bytes makes `build_frame` fail with the LEN
range error. -/
theorem build_frame_too_large {stx : Nat} {addr cmd data : PyVal} {a c : Int} {p : List Nat}
    (hA : parse_u8 addr = .ok a) (hC : parse_u8 cmd = .ok c)
    (hD : data_to_2_bytes data = .ok p) (hbig : 253 < p.length) :
    build_frame stx addr cmd data = .error (.valueError frameLenMsg) := by
  simp only [build_frame, hA, hC, hD, bind, Except.bind]
  rw [if_pos (by omega)]
  rfl

/-- `parse_u8` on whitespace-only text fails with the number-format error. -/
theorem parse_u8_all_space {s : List Char} (h : s.all isPySpace) :
    parse_u8 (.vStr s) = .error (.valueError invalidLitMsg) := by
  show parse_u8_str s = _
  unfold parse_u8_str
  rw [strip_all_space h]
  rfl

/-- Python base-16 parsing of a lowered `0x`-string is base-16 parsing of the
digit run after the marker. -/
theorem pyInt16_of_0x {t : List Char} (h : startsWith0x t = true) :
    pyInt 16 t = (digitsVal? 16 (t.drop 2)).map Int.ofNat := by
  unfold startsWith0x at h
  split at h
  · rfl
  · exact absurd h (by simp)

/-- The text branch of `parse_u8` implements the spec's text rule. -/
theorem parse_u8_str_eq_spec (s : List Char) : parse_u8_str s = u8TextOfSpec s := by
  simp only [parse_u8_str, u8TextOfSpec]
  by_cases h : startsWith0x (pyLower (pyStrip s)) = true
  · rw [if_pos h, if_pos h, pyInt16_of_0x h]
  · rw [if_neg h, if_neg h]

/-- The integer payload rule as one range formula. -/
theorem data_int_formula (v : Int) :
    data_int v =
      if 0 ≤ v ∧ v ≤ 255 then .ok [0x00, v.toNat]
      else .error (.valueError dataRangeMsg) := by
  unfold data_int
  by_cases h0 : v = 0
  · subst h0
    rw [if_pos rfl, if_pos (by omega)]
    rfl
  · rw [if_neg h0]
    by_cases hr : 0 ≤ v ∧ v ≤ 255
    · rw [if_neg (by omega), if_pos hr]
    · rw [if_pos (by omega), if_neg hr]

/-- The amended validator accepts every frame of `build_frame`'s shape and
recovers its fields. -/
theorem parse_stx_of_frame (stx A C : Nat) (p : List Nat) (hp : p.length ≤ 251) :
    parse_stx_crc stx (([stx, 2 + p.length, A, C] ++ p) ++
      [crc16_modbus ([stx, 2 + p.length, A, C] ++ p) &&& 0xFF,
       (crc16_modbus ([stx, 2 + p.length, A, C] ++ p) >>> 8) &&& 0xFF]) = .ok (A, C, p) := by
  set n := p.length with hn
  set head : List Nat := [stx, 2 + n, A, C] ++ p with hhead
  set cl : Nat := crc16_modbus head &&& 0xFF with hcl
  set ch : Nat := (crc16_modbus head >>> 8) &&& 0xFF with hch
  have hheadlen : head.length = 4 + n := by
    simp [hhead]
    omega
  have hflen : (head ++ [cl, ch]).length = 6 + n := by
    simp [hheadlen]
    omega
  have hcons : head ++ [cl, ch] = stx :: (2 + n) :: A :: C :: (p ++ [cl, ch]) := by
    simp [hhead]
  unfold parse_stx_crc
  rw [if_neg (by omega)]
  rw [hcons]
  simp only [List.headI, ne_eq, not_true_eq_false, if_false, List.getD_cons_succ,
    List.getD_cons_zero]
  rw [if_neg (by simp; omega)]
  have htake : (stx :: (2 + n) :: A :: C :: (p ++ [cl, ch])).take (2 + (2 + n)) = head := by
    rw [hhead, hcons.symm]
    exact List.take_left' (by omega)
  rw [htake]
  have hgetcl : (stx :: (2 + n) :: A :: C :: (p ++ [cl, ch])).getD (2 + (2 + n)) 0 = cl := by
    rw [hcons.symm]
    rw [List.getD_append_right _ _ _ _ (by omega)]
    rw [hheadlen]
    rw [show 2 + (2 + n) - (4 + n) = 0 from by omega]
    rfl
  have hgetch : (stx :: (2 + n) :: A :: C :: (p ++ [cl, ch])).getD (3 + (2 + n)) 0 = ch := by
    rw [hcons.symm]
    rw [List.getD_append_right _ _ _ _ (by omega)]
    rw [hheadlen]
    rw [show 3 + (2 + n) - (4 + n) = 1 from by omega]
    rfl
  rw [if_pos ⟨by rw [hgetcl, hcl], by rw [hgetch, hch]⟩]
  have hdrop : (stx :: (2 + n) :: A :: C :: (p ++ [cl, ch])).drop 4 = p ++ [cl, ch] := rfl
  rw [hdrop]
  rw [show 2 + n - 2 = n from by omega]
  rw [List.take_left' hn.symm]

/-! ### Claims -/

/-- Claim C1, counterexample: `build(0x01, 0x02, 0x00)` does NOT equal
`A5 04 01 02 00 00` followed by the CRC16/Modbus of `04 01 02 00 00`
(the code checksums the STX byte as well). -/
theorem c1_crc_excludes_stx_false :
    build_frame 0xA5 (.vInt 0x01) (.vInt 0x02) (.vInt 0x00) ≠
      .ok ([0xA5, 0x04, 0x01, 0x02, 0x00, 0x00] ++
        [crc16_modbus [0x04, 0x01, 0x02, 0x00, 0x00] &&& 0xFF,
         (crc16_modbus [0x04, 0x01, 0x02, 0x00, 0x00] >>> 8) &&& 0xFF]) := by decide

/-- Claim C1 as amended: for every successful build, the two trailing CRC
bytes are the CRC16/Modbus of ALL frame bytes before the CRC — STX included —
appended low byte first; in particular `build(0x01, 0x02, 0x00)` equals
`A5 04 01 02 00 00` followed by the low and high bytes of the CRC16/Modbus of
`A5 04 01 02 00 00`. -/
theorem c1_crc_over_full_head :
    (∀ (stx : Nat) (addr cmd data : PyVal) (f : List Nat),
        build_frame stx addr cmd data = .ok f →
        f.drop (f.length - 2) =
          [crc16_modbus (f.take (f.length - 2)) &&& 0xFF,
           (crc16_modbus (f.take (f.length - 2)) >>> 8) &&& 0xFF]) ∧
    build_frame 0xA5 (.vInt 0x01) (.vInt 0x02) (.vInt 0x00) =
      .ok ([0xA5, 0x04, 0x01, 0x02, 0x00, 0x00] ++
        [crc16_modbus [0xA5, 0x04, 0x01, 0x02, 0x00, 0x00] &&& 0xFF,
         (crc16_modbus [0xA5, 0x04, 0x01, 0x02, 0x00, 0x00] >>> 8) &&& 0xFF]) := by
  constructor
  · intro stx addr cmd data f h
    obtain ⟨a, c, p, hA, hC, hD, hlen, rfl⟩ := build_frame_ok_inv h
    set head : List Nat := [stx, 2 + p.length, a.toNat, c.toNat] ++ p with hhead
    have hlen2 :
        (head ++ [crc16_modbus head &&& 0xFF, (crc16_modbus head >>> 8) &&& 0xFF]).length - 2 =
          head.length := by
      simp
    rw [hlen2, List.drop_left, List.take_left]
  · decide

/-- Witness for C1: the concrete frame of `build(1, 2, 0)` has the stated
trailer. -/
theorem c1_crc_over_full_head_witness :
    ([0xA5, 4, 1, 2, 0, 0, 73, 18] : List Nat).drop
        (([0xA5, 4, 1, 2, 0, 0, 73, 18] : List Nat).length - 2) =
      [crc16_modbus (([0xA5, 4, 1, 2, 0, 0, 73, 18] : List Nat).take
          (([0xA5, 4, 1, 2, 0, 0, 73, 18] : List Nat).length - 2)) &&& 0xFF,
       (crc16_modbus (([0xA5, 4, 1, 2, 0, 0, 73, 18] : List Nat).take
          (([0xA5, 4, 1, 2, 0, 0, 73, 18] : List Nat).length - 2)) >>> 8) &&& 0xFF] :=
  c1_crc_over_full_head.1 0xA5 (.vInt 1) (.vInt 2) (.vInt 0)
    [0xA5, 4, 1, 2, 0, 0, 73, 18] (by decide)

/-- Claim C2, counterexample: a 252-byte payload — longer than the claimed
251-byte bound — builds successfully. -/
theorem c2_payload_bound_false :
    build_frame 0xA5 (.vInt 1) (.vInt 2) (.vBytes (List.replicate 252 7)) =
      .ok (([0xA5, 2 + (List.replicate 252 (7 : Nat)).length, (1 : Int).toNat,
          (2 : Int).toNat] ++ List.replicate 252 7) ++
        [crc16_modbus ([0xA5, 2 + (List.replicate 252 (7 : Nat)).length, (1 : Int).toNat,
            (2 : Int).toNat] ++ List.replicate 252 7) &&& 0xFF,
         (crc16_modbus ([0xA5, 2 + (List.replicate 252 (7 : Nat)).length, (1 : Int).toNat,
            (2 : Int).toNat] ++ List.replicate 252 7) >>> 8) &&& 0xFF]) ∧
    251 < (List.replicate 252 (7 : Nat)).length := by
  constructor
  · have hD : data_to_2_bytes (.vBytes (List.replicate 252 (7 : Nat))) =
        .ok (List.replicate 252 7) := by
      rw [show data_to_2_bytes (.vBytes (List.replicate 252 (7 : Nat))) =
        .ok (data_bytes (List.replicate 252 7)) from rfl]
      rw [data_bytes_of_ne_one (by simp)]
    exact build_frame_ok 0xA5 (.vInt 1) (.vInt 2) (.vBytes (List.replicate 252 7)) 1 2
      (List.replicate 252 7) (by decide) (by decide) hD (by simp)
  · simp

/-- Claim C2 as amended: every successful build has the layout
`STX | LEN | ADDR | CMD | PAYLOAD | CRC_LOW | CRC_HIGH` with
`LEN = 2 + len(PAYLOAD)`, `2 ≤ LEN ≤ 255` and `len(PAYLOAD)` between 0 and
253 (not 251), and build fails with the LEN `RangeError` whenever the
computed length falls outside 2..255 (that is, when the payload exceeds 253
bytes). -/
theorem c2_frame_layout :
    (∀ (stx : Nat) (addr cmd data : PyVal) (f : List Nat),
        build_frame stx addr cmd data = .ok f →
        ∃ a c p, parse_u8 addr = .ok a ∧ parse_u8 cmd = .ok c ∧
          data_to_2_bytes data = .ok p ∧
          p.length ≤ 253 ∧ 2 ≤ 2 + p.length ∧ 2 + p.length ≤ 255 ∧
          f = ([stx, 2 + p.length, a.toNat, c.toNat] ++ p) ++
            [crc16_modbus ([stx, 2 + p.length, a.toNat, c.toNat] ++ p) &&& 0xFF,
             (crc16_modbus ([stx, 2 + p.length, a.toNat, c.toNat] ++ p) >>> 8) &&& 0xFF]) ∧
    (∀ (stx : Nat) (addr cmd data : PyVal) (a c : Int) (p : List Nat),
        parse_u8 addr = .ok a → parse_u8 cmd = .ok c → data_to_2_bytes data = .ok p →
        253 < p.length →
        build_frame stx addr cmd data = .error (.valueError frameLenMsg)) := by
  constructor
  · intro stx addr cmd data f h
    obtain ⟨a, c, p, hA, hC, hD, hlen, hf⟩ := build_frame_ok_inv h
    exact ⟨a, c, p, hA, hC, hD, hlen, by omega, by omega, hf⟩
  · intro stx addr cmd data a c p hA hC hD hbig
    exact build_frame_too_large hA hC hD hbig

/-- Witness for C2: the layout of `build(1, 2, None)` and the failure of a
254-byte payload. -/
theorem c2_frame_layout_witness :
    (∃ a c p, parse_u8 (.vInt 1) = .ok a ∧ parse_u8 (.vInt 2) = .ok c ∧
       data_to_2_bytes .vNone = .ok p ∧ p.length ≤ 253 ∧ 2 ≤ 2 + p.length ∧
       2 + p.length ≤ 255 ∧
       ([0xA5, 2, 1, 2, 3, 121] : List Nat) = ([0xA5, 2 + p.length, a.toNat, c.toNat] ++ p) ++
         [crc16_modbus ([0xA5, 2 + p.length, a.toNat, c.toNat] ++ p) &&& 0xFF,
          (crc16_modbus ([0xA5, 2 + p.length, a.toNat, c.toNat] ++ p) >>> 8) &&& 0xFF]) ∧
    build_frame 0xA5 (.vInt 1) (.vInt 2) (.vBytes (List.replicate 254 0)) =
      .error (.valueError frameLenMsg) :=
  ⟨c2_frame_layout.1 0xA5 (.vInt 1) (.vInt 2) .vNone [0xA5, 2, 1, 2, 3, 121] (by decide),
   c2_frame_layout.2 0xA5 (.vInt 1) (.vInt 2) (.vBytes (List.replicate 254 0)) 1 2
     (List.replicate 254 0) (by decide) (by decide)
     (by rw [show data_to_2_bytes (.vBytes (List.replicate 254 (0 : Nat))) =
           .ok (data_bytes (List.replicate 254 0)) from rfl, data_bytes_of_ne_one (by simp)])
     (by simp)⟩

/-- Claim C3, counterexample: the spec's validator rejects the built frame
for `(1, 2, b"")` with `ChecksumError` (its CRC span omits the STX byte the
builder checksums), and even with the corrected CRC span a 1-byte payload
`b"\x05"` does not round-trip: the frame for `(1, 2, b"\x05")` parses to the
promoted payload `[0x00, 0x05]`, not the original `[0x05]`. -/
theorem c3_round_trip_false :
    parse 0xA5 ((build_frame 0xA5 (.vInt 1) (.vInt 2) (.vBytes [])).toOption.getD []) =
      .error .checksumError ∧
    parse_stx_crc 0xA5
        ((build_frame 0xA5 (.vInt 1) (.vInt 2) (.vBytes [5])).toOption.getD []) ≠
      .ok (1, 2, [5]) ∧
    parse_stx_crc 0xA5
        ((build_frame 0xA5 (.vInt 1) (.vInt 2) (.vBytes [5])).toOption.getD []) =
      .ok (1, 2, [0, 5]) := by decide

/-- Claim C3 as amended: for every addr and cmd in 0..255 and every byte
payload of length 0 or 2..251, a validator that recomputes the CRC over STX
through end of payload — the span `build_frame` actually checksums — returns
exactly that addr, cmd and payload from the built frame. -/
theorem c3_round_trip_amended (stx a c : Nat) (p : List Nat) (ha : a < 256) (hc : c < 256)
    (hp : p.length ≤ 251) (hp1 : p.length ≠ 1) (f : List Nat)
    (hbuild : build_frame stx (.vInt a) (.vInt c) (.vBytes p) = .ok f) :
    parse_stx_crc stx f = .ok (a, c, p) := by
  have hA := parse_u8_nat ha
  have hC := parse_u8_nat hc
  have hD : data_to_2_bytes (.vBytes p) = .ok p := by
    rw [show data_to_2_bytes (.vBytes p) = .ok (data_bytes p) from rfl,
      data_bytes_of_ne_one hp1]
  rw [build_frame_ok stx _ _ _ _ _ p hA hC hD (by omega)] at hbuild
  cases hbuild
  have h := parse_stx_of_frame stx a c p hp
  simpa using h

/-- Witness for C3: the frame for `(1, 2, b"\x07\x08\x09")` round-trips
through the amended validator. -/
theorem c3_round_trip_amended_witness :
    parse_stx_crc 0xA5
        ((build_frame 0xA5 (.vInt 1) (.vInt 2) (.vBytes [7, 8, 9])).toOption.getD []) =
      .ok (1, 2, [7, 8, 9]) :=
  c3_round_trip_amended 0xA5 1 2 [7, 8, 9] (by decide) (by decide) (by decide) (by decide) _
    (by decide)

/-- Claim C4: `crc16_modbus` computes CRC16/Modbus exactly as specified
(initial register 0xFFFF, XOR each byte, 8 iterations of
shift-right-and-conditionally-XOR-0xA001, 16-bit mask); the checksum of the
empty sequence is 0xFFFF, and the function is deterministic. -/
theorem c4_crc16_algorithm :
    (∀ data : List Nat, crc16_modbus data = crc16_spec data) ∧
    crc16_modbus [] = 0xFFFF ∧
    (∀ d1 d2 : List Nat, d1 = d2 → crc16_modbus d1 = crc16_modbus d2) := by
  refine ⟨crc16_eq_spec, rfl, ?_⟩
  intro d1 d2 h
  rw [h]

/-- Witness for C4: determinism applied at a concrete byte sequence. -/
theorem c4_crc16_algorithm_witness :
    ([4, 1, 2, 0, 0] : List Nat) = [4, 1, 2, 0, 0] ∧
    crc16_modbus [4, 1, 2, 0, 0] = crc16_modbus [4, 1, 2, 0, 0] :=
  ⟨rfl, c4_crc16_algorithm.2.2 [4, 1, 2, 0, 0] [4, 1, 2, 0, 0] rfl⟩

/-- Claim C5: for every text input, after trimming, a case-insensitive `0x`
marker selects base-16 parsing of the remainder; otherwise an all-hex-digit
string is parsed as base-16 (so `to_u8("10")` returns 16, not 10); otherwise
base-10. -/
theorem c5_u8_text_rule :
    (∀ s : List Char, parse_u8 (.vStr s) = u8TextOfSpec s) ∧
    parse_u8 (.vStr ['1', '0']) = .ok 16 :=
  ⟨fun s => parse_u8_str_eq_spec s, by decide⟩

/-- Claim C6: integer payloads fail with `RangeError` outside 0..255 and
otherwise encode big-endian as `[0x00, v]` with 0 accepted as
`[0x00, 0x00]`; text payloads are trimmed, the empty string gives the empty
payload, and otherwise the text is parsed base-16 with a `0x` marker and
base-10 without, then handled as an integer. -/
theorem c6_payload_rule :
    (∀ v : Int, data_to_2_bytes (.vInt v) =
       if 0 ≤ v ∧ v ≤ 255 then .ok [0x00, v.toNat] else .error (.valueError dataRangeMsg)) ∧
    data_to_2_bytes (.vInt 0) = .ok [0x00, 0x00] ∧
    data_to_2_bytes (.vStr []) = .ok [] ∧
    (∀ s : List Char, data_to_2_bytes (.vStr s) = payloadTextOfSpec s) :=
  ⟨fun v => data_int_formula v, by decide, by decide, fun s => rfl⟩

/-- Claim C7: `parse_u8` on an integer returns it exactly when it lies in
0..255 and fails with the range `ValueError` otherwise — in particular at
256 and -1 — and every `v` in 0..255 round-trips through its `0x`-prefixed
hexadecimal representation (`'0' :: 'x' :: Nat.toDigits 16 v` models Python
`hex(v)`). -/
theorem c7_u8_int_rule :
    (∀ v : Int, parse_u8 (.vInt v) =
       if 0 ≤ v ∧ v ≤ 255 then .ok v else .error (.valueError u8RangeMsg)) ∧
    parse_u8 (.vInt 256) = .error (.valueError u8RangeMsg) ∧
    parse_u8 (.vInt (-1)) = .error (.valueError u8RangeMsg) ∧
    (∀ v : Fin 256,
       parse_u8 (.vStr ('0' :: 'x' :: Nat.toDigits 16 (v : Nat))) = .ok ((v : Nat) : Int)) :=
  ⟨fun v => rfl, by decide, by decide, by decide⟩

/-- Claim C8: the sender stores `stx & 0xFF`, which equals `stx mod 256` for
every integer, so an out-of-range STX is silently truncated and the first
byte of every built frame is that residue, always below 256. -/
theorem c8_stx_truncation :
    (∀ stx : Int, sender_stx stx = (stx.emod 256).toNat) ∧
    (∀ (stx : Int) (addr cmd data : PyVal) (f : List Nat),
        build_frame (sender_stx stx) addr cmd data = .ok f →
        f.headI = (stx.emod 256).toNat ∧ f.headI < 256) := by
  have hsx : ∀ stx : Int, sender_stx stx = (stx.emod 256).toNat := by
    intro stx
    unfold sender_stx
    rw [land255_eq_emod]
  refine ⟨hsx, ?_⟩
  intro stx addr cmd data f h
  obtain ⟨a, c, p, hA, hC, hD, hlen, rfl⟩ := build_frame_ok_inv h
  have hh : ((([sender_stx stx, 2 + p.length, a.toNat, c.toNat] ++ p) ++
      [crc16_modbus ([sender_stx stx, 2 + p.length, a.toNat, c.toNat] ++ p) &&& 0xFF,
       (crc16_modbus ([sender_stx stx, 2 + p.length, a.toNat, c.toNat] ++ p) >>> 8) &&& 0xFF]) :
      List Nat).headI = sender_stx stx := rfl
  rw [hh, hsx]
  have h1 : 0 ≤ stx.emod 256 := Int.emod_nonneg _ (by norm_num)
  have h2 : stx.emod 256 < 256 := Int.emod_lt_of_pos _ (by norm_num)
  omega

/-- Witness for C8: a sender configured with `stx = 0x1A5` emits frames whose
first byte is `0x1A5 mod 256 = 0xA5`. -/
theorem c8_stx_truncation_witness :
    ([165, 2, 1, 2, 3, 121] : List Nat).headI = ((0x1A5 : Int).emod 256).toNat ∧
    ([165, 2, 1, 2, 3, 121] : List Nat).headI < 256 :=
  c8_stx_truncation.2 0x1A5 (.vInt 1) (.vInt 2) .vNone [165, 2, 1, 2, 3, 121] (by decide)

/-- Claim C9: every `bytearray` fails `parse_u8` with `TypeError` — even at
length 1, where the equivalent `bytes` value is accepted — while
`data_to_2_bytes` accepts a `bytearray` exactly like the same `bytes`
value. -/
theorem c9_bytearray_shapes :
    (∀ bs : List Nat, parse_u8 (.vByteArray bs) = .error (.typeError u8TypeMsg)) ∧
    (∀ b : Fin 256, parse_u8 (.vBytes [(b : Nat)]) = .ok ((b : Nat) : Int)) ∧
    (∀ bs : List Nat, data_to_2_bytes (.vByteArray bs) = .ok (data_bytes bs)) ∧
    (∀ bs : List Nat, data_to_2_bytes (.vByteArray bs) = data_to_2_bytes (.vBytes bs)) :=
  ⟨fun bs => rfl, by decide, fun bs => rfl, fun bs => rfl⟩

/-- Claim C10: the empty string, whitespace-only strings and the empty bytes
value all fail `parse_u8` with the number-format `ValueError` (never
`TypeError`, never a value), and `build_frame` fails whenever addr or cmd is
such text. -/
theorem c10_empty_text :
    parse_u8 (.vStr []) = .error (.valueError invalidLitMsg) ∧
    (∀ s : List Char, s.all isPySpace → parse_u8 (.vStr s) = .error (.valueError invalidLitMsg)) ∧
    parse_u8 (.vBytes []) = .error (.valueError invalidLitMsg) ∧
    (∀ (stx : Nat) (other data : PyVal) (s : List Char), s.all isPySpace →
        (build_frame stx (.vStr s) other data).isOk = false ∧
        (build_frame stx other (.vStr s) data).isOk = false) := by
  refine ⟨by decide, fun s h => parse_u8_all_space h, by decide, ?_⟩
  intro stx other data s h
  constructor
  · simp [build_frame, parse_u8_all_space h, bind, Except.bind, Except.isOk, Except.toBool]
  · cases hO : parse_u8 other with
    | error e => simp [build_frame, hO, bind, Except.bind, Except.isOk, Except.toBool]
    | ok a =>
      simp [build_frame, hO, parse_u8_all_space h, bind, Except.bind, Except.isOk,
        Except.toBool]

/-- Witness for C10: a whitespace-only string fails, and builds with such an
addr or cmd fail. -/
theorem c10_empty_text_witness :
    parse_u8 (.vStr [' ', '\t']) = .error (.valueError invalidLitMsg) ∧
    (build_frame 0xA5 (.vStr [' ']) (.vInt 2) .vNone).isOk = false ∧
    (build_frame 0xA5 (.vInt 2) (.vStr [' ']) .vNone).isOk = false :=
  ⟨c10_empty_text.2.1 [' ', '\t'] (by decide),
   (c10_empty_text.2.2.2 0xA5 (.vInt 2) .vNone [' '] (by decide)).1,
   (c10_empty_text.2.2.2 0xA5 (.vInt 2) .vNone [' '] (by decide)).2⟩

end SerialClient
